import Mathlib

/-!
Verification of `src/generate_compose.py` (komyo-ai/ctf-leaderboard): a
single-pass generator that reads a parsed scenario document (a nested
string-keyed mapping produced by a TOML parser) and emits three text
artifacts: a Docker Compose file, an environment-variable template and a
rewritten runner scenario document.

The parsed document is shallowly embedded as the inductive `Value`
(strings, integers, booleans, ordered sequences and ordered string-keyed
mappings — the scalar kinds the repository's documents use).  Python's
dynamic operations on such values (`in`, subscription, `.get`, `.items()`,
`len`, iteration, truthiness, `str()`) are embedded as small total
functions; operations that can raise an exception return in the `PyResult`
monad, whose `raised` constructor stands for an uncaught Python exception
and whose `exited` constructor stands for `sys.exit(1)` after printing the
carried message.
-/

inductive Value where
  | str : String → Value
  | int : Int → Value
  | bool : Bool → Value
  | list : List Value → Value
  | table : List (String × Value) → Value

mutual
/-- Structural equality of values (Python `==` restricted to the kinds the
documents use; distinct kinds compare unequal). -/
def Value.beq : Value → Value → Bool
  | .str a, .str b => a == b
  | .int a, .int b => a == b
  | .bool a, .bool b => a == b
  | .list a, .list b => Value.beqList a b
  | .table a, .table b => Value.beqTable a b
  | _, _ => false

def Value.beqList : List Value → List Value → Bool
  | [], [] => true
  | a :: as, b :: bs => Value.beq a b && Value.beqList as bs
  | _, _ => false

def Value.beqTable : List (String × Value) → List (String × Value) → Bool
  | [], [] => true
  | a :: as, b :: bs => (a.1 == b.1 && Value.beq a.2 b.2) && Value.beqTable as bs
  | _, _ => false
end

instance : BEq Value := ⟨Value.beq⟩

/-- The top-level parsed document: a Python dict with string keys, in
insertion order (the order the TOML parser produced). -/
abbrev Config := List (String × Value)

/-- Result of running a fragment of the script: a value, `sys.exit(1)`
after printing a message, or an uncaught Python exception. -/
inductive PyResult (α : Type) where
  | ok : α → PyResult α
  | exited : String → PyResult α
  | raised : PyResult α

instance : Monad PyResult where
  pure := PyResult.ok
  bind x f :=
    match x with
    | .ok a => f a
    | .exited m => .exited m
    | .raised => .raised

@[simp] theorem PyResult.ok_bind {α β : Type} (a : α) (f : α → PyResult β) :
    (PyResult.ok a >>= f) = f a := rfl

@[simp] theorem PyResult.exited_bind {α β : Type} (m : String) (f : α → PyResult β) :
    (PyResult.exited m >>= f) = PyResult.exited m := rfl

@[simp] theorem PyResult.raised_bind {α β : Type} (f : α → PyResult β) :
    (PyResult.raised >>= f) = (PyResult.raised : PyResult β) := rfl

@[simp] theorem PyResult.pure_eq {α : Type} (a : α) :
    (pure a : PyResult α) = PyResult.ok a := rfl

/-- Python `needle in haystack` for two strings: substring containment
(the empty needle is contained in every string). -/
def strContains (haystack needle : String) : Bool :=
  if needle = "" then true else (haystack.splitOn needle).length ≥ 2

/-- Python `key in v` where `key` is a string: key membership for a dict,
substring containment for a string, element membership for a list; a
`TypeError` (here `none`) for the other value kinds. -/
def pyContains (v : Value) (key : String) : PyResult Bool :=
  match v with
  | .table kvs => .ok ((kvs.lookup key).isSome)
  | .str s => .ok (strContains s key)
  | .list xs => .ok (xs.any (fun x => x == Value.str key))
  | _ => .raised

/-- Python `v[key]` with a string key: dict lookup; `KeyError` or
`TypeError` is `raised`. -/
def pySubscr (v : Value) (key : String) : PyResult Value :=
  match v with
  | .table kvs =>
    match kvs.lookup key with
    | some x => .ok x
    | none => .raised
  | _ => .raised

/-- Python `v.get(key, dflt)`: defined for dicts only (an
`AttributeError`, i.e. `raised`, otherwise). -/
def pyGet (v : Value) (key : String) (dflt : Value) : PyResult Value :=
  match v with
  | .table kvs => .ok ((kvs.lookup key).getD dflt)
  | _ => .raised

/-- Python `len(v)`: length of a string, list or dict; `TypeError`
otherwise. -/
def pyLen (v : Value) : PyResult Nat :=
  match v with
  | .str s => .ok s.length
  | .list xs => .ok xs.length
  | .table kvs => .ok kvs.length
  | _ => .raised

/-- Python iteration `for x in v`: the elements of a list, the characters
of a string (as one-character strings), the keys of a dict; `TypeError`
otherwise. -/
def pyIter (v : Value) : PyResult (List Value) :=
  match v with
  | .list xs => .ok xs
  | .str s => .ok (s.toList.map (fun c => Value.str c.toString))
  | .table kvs => .ok (kvs.map (fun kv => Value.str kv.1))
  | _ => .raised

/-- Python `v.items()`: defined for dicts only. -/
def pyItems (v : Value) : PyResult (List (String × Value)) :=
  match v with
  | .table kvs => .ok kvs
  | _ => .raised

/-- Python truthiness of a value. -/
def pyTruthy (v : Value) : Bool :=
  match v with
  | .str s => !s.isEmpty
  | .int n => n != 0
  | .bool b => b
  | .list xs => !xs.isEmpty
  | .table kvs => !kvs.isEmpty

/-- `repr` of a Python string restricted to the printable characters the
documents use: single quotes unless the string holds a single quote and no
double quote, with backslash escapes for the quote character, backslashes
and the common control characters. -/
def pyReprStrBody (quote : Char) (s : String) : String :=
  String.join (s.toList.map (fun c =>
    if c = '\\' then "\\\\"
    else if c = quote then "\\" ++ quote.toString
    else if c = '\n' then "\\n"
    else if c = '\r' then "\\r"
    else if c = '\t' then "\\t"
    else c.toString))

def pyReprStr (s : String) : String :=
  if s.contains '\'' && !(s.contains '\"') then
    "\"" ++ pyReprStrBody '\"' s ++ "\""
  else
    "'" ++ pyReprStrBody '\'' s ++ "'"

mutual
/-- Python `repr` of a value (used by `str()` on lists and dicts). -/
def pyRepr : Value → String
  | .str s => pyReprStr s
  | .int n => toString n
  | .bool b => cond b "True" "False"
  | .list xs => "[" ++ pyReprList xs ++ "]"
  | .table kvs => "\x7b" ++ pyReprTable kvs ++ "\x7d"

def pyReprList : List Value → String
  | [] => ""
  | [x] => pyRepr x
  | x :: y :: rest => pyRepr x ++ ", " ++ pyReprList (y :: rest)

def pyReprTable : List (String × Value) → String
  | [] => ""
  | [kv] => pyReprStr kv.1 ++ ": " ++ pyRepr kv.2
  | kv :: kv2 :: rest => pyReprStr kv.1 ++ ": " ++ pyRepr kv.2 ++ ", " ++ pyReprTable (kv2 :: rest)
end

/-- Python `str()` of a value, as interpolated by the script's f-strings:
a string is itself, everything else is its `repr`. -/
def pyStr (v : Value) : String :=
  match v with
  | .str s => s
  | v => pyRepr v

/-- `validate_config`, the per-role loop (`for i, role in
enumerate(required_roles)` with checks `name`, `image`, `port` in order;
the failure message carries the index). -/
def validateRoles : List Value → Nat → PyResult Unit
  | [], _ => pure ()
  | role :: rest, i => do
    let hasName ← pyContains role "name"
    if !hasName then
      PyResult.exited ("Error: Required field 'participants.required_roles[" ++ toString i ++ "].name' not found in TOML")
    else do
      let hasImage ← pyContains role "image"
      if !hasImage then
        PyResult.exited ("Error: Required field 'participants.required_roles[" ++ toString i ++ "].image' not found in TOML")
      else do
        let hasPort ← pyContains role "port"
        if !hasPort then
          PyResult.exited ("Error: Required field 'participants.required_roles[" ++ toString i ++ "].port' not found in TOML")
        else
          validateRoles rest (i + 1)

/-- `validate_config(config)`: the five required-field checks, each
printing a field-specific message and exiting on failure. -/
def validate_config (config : Config) : PyResult Unit := do
  match config.lookup "green_agent" with
  | none => PyResult.exited "Error: Required field 'green_agent' not found in TOML"
  | some green_agent => do
    let hasImage ← pyContains green_agent "image"
    if !hasImage then
      PyResult.exited "Error: Required field 'green_agent.image' not found in TOML"
    else do
      let hasPort ← pyContains green_agent "port"
      if !hasPort then
        PyResult.exited "Error: Required field 'green_agent.port' not found in TOML"
      else do
        let participants := (config.lookup "participants").getD (.table [])
        let required_roles ← pyGet participants "required_roles" (.list [])
        let n ← pyLen required_roles
        if n < 1 then
          PyResult.exited "Error: At least one participant role is required"
        else do
          let roles ← pyIter required_roles
          validateRoles roles 0

/-! ## The Docker Compose generator (`generate_docker_compose`) -/

/-- The environment block body of an agent service: one line per EnvVar,
`- NAME=<default>` when the entry has a `default` key, the substitution
placeholder `- NAME=${NAME}` otherwise. -/
def composeEnvLinesM : List Value → PyResult (List String)
  | [] => pure []
  | var :: rest => do
    let var_name ← pySubscr var "name"
    let hasDef ← pyContains var "default"
    let line ←
      if hasDef then do
        let d ← pySubscr var "default"
        pure ("      - " ++ pyStr var_name ++ "=" ++ pyStr d)
      else
        pure ("      - " ++ pyStr var_name ++ "=$\x7b" ++ pyStr var_name ++ "\x7d")
    let restL ← composeEnvLinesM rest
    pure (line :: restL)

/-- The environment block of one agent service (the Python snippet
`if <env>: lines.append("    environment:"); for var in <env>: …`,
repeated verbatim for the green agent and for each role). -/
def envSectionM (env : Value) : PyResult (List String) :=
  if pyTruthy env then do
    let vars ← pyIter env
    let ls ← composeEnvLinesM vars
    pure ("    environment:" :: ls)
  else
    pure []

/-- The green agent service's `depends_on` body: `- <role name>` per role
(no health condition). -/
def greenDependsLinesM : List Value → PyResult (List String)
  | [] => pure []
  | role :: rest => do
    let n ← pySubscr role "name"
    let restL ← greenDependsLinesM rest
    pure (("      - " ++ pyStr n) :: restL)

/-- One participant role's service block. -/
def roleServiceLinesM (role : Value) : PyResult (List String) := do
  let role_name ← pySubscr role "name"
  let role_image ← pySubscr role "image"
  let role_port ← pySubscr role "port"
  let base :=
    ["  " ++ pyStr role_name ++ ":",
     "    image: " ++ pyStr role_image,
     "    container_name: " ++ pyStr role_name,
     "    command: [\"--host\", \"0.0.0.0\", \"--port\", \"" ++ pyStr role_port
       ++ "\", \"--card-url\", \"http://" ++ pyStr role_name ++ ":" ++ pyStr role_port ++ "\"]",
     "    healthcheck:",
     "      test: [\"CMD\", \"python\", \"-c\", \"import urllib.request; urllib.request.urlopen('http://localhost:"
       ++ pyStr role_port ++ "/.well-known/agent-card.json')\"]",
     "      interval: 5s",
     "      timeout: 3s",
     "      retries: 10",
     "      start_period: 30s"]
  let role_env ← pyGet role "environment" (.list [])
  let envPart ← envSectionM role_env
  pure (base ++ envPart ++ ["    networks:", "      - agent-network", ""])

/-- The service blocks of all participant roles, in document order. -/
def rolesServiceLinesM : List Value → PyResult (List String)
  | [] => pure []
  | role :: rest => do
    let block ← roleServiceLinesM role
    let restL ← rolesServiceLinesM rest
    pure (block ++ restL)

/-- `["green-agent"] + [role["name"] for role in required_roles]`. -/
def allServicesM : List Value → PyResult (List Value)
  | [] => pure []
  | role :: rest => do
    let n ← pySubscr role "name"
    let restL ← allServicesM rest
    pure (n :: restL)

/-- The runner service's `depends_on` body: each service name followed by
`condition: service_healthy`. -/
def runnerDependsLines (services : List Value) : List String :=
  services.flatMap (fun s => ["      " ++ pyStr s ++ ":", "        condition: service_healthy"])

/-- `generate_docker_compose(config)`, as the list of output lines (the
Python function returns `"\n".join(lines)`; see
`generate_docker_compose`). -/
def generate_docker_composeLines (config : Config) : PyResult (List String) := do
  let green_agent ←
    match config.lookup "green_agent" with
    | some v => pure v
    | none => PyResult.raised
  let participants := (config.lookup "participants").getD (.table [])
  let required_roles ← pyGet participants "required_roles" (.list [])
  let gImage ← pySubscr green_agent "image"
  let gPort ← pySubscr green_agent "port"
  let headPart :=
    ["# Auto-generated Docker Compose file from scenario.toml",
     "# Do not edit manually - regenerate using generate_compose.py",
     "",
     "version: '3.8'",
     "",
     "services:",
     "  green-agent:",
     "    image: " ++ pyStr gImage,
     "    container_name: green-agent",
     "    command: [\"--host\", \"0.0.0.0\", \"--port\", \"" ++ pyStr gPort
       ++ "\", \"--card-url\", \"http://green-agent:" ++ pyStr gPort ++ "\"]",
     "    healthcheck:",
     "      test: [\"CMD\", \"python\", \"-c\", \"import urllib.request; urllib.request.urlopen('http://localhost:"
       ++ pyStr gPort ++ "/.well-known/agent-card.json')\"]",
     "      interval: 5s",
     "      timeout: 3s",
     "      retries: 10",
     "      start_period: 30s"]
  let green_env ← pyGet green_agent "environment" (.list [])
  let gEnvPart ← envSectionM green_env
  let gDepPart ←
    if pyTruthy required_roles then do
      let roles ← pyIter required_roles
      let ls ← greenDependsLinesM roles
      pure ("    depends_on:" :: ls)
    else
      pure []
  let roles ← pyIter required_roles
  let roleBlocks ← rolesServiceLinesM roles
  let names ← allServicesM roles
  let all_services := Value.str "green-agent" :: names
  pure (headPart ++ gEnvPart ++ gDepPart
    ++ ["    networks:", "      - agent-network", ""]
    ++ roleBlocks
    ++ ["  agentbeats-runner:",
        "    image: ghcr.io/komyo-ai/agentbeats-runner:latest",
        "    container_name: agentbeats-runner",
        "    volumes:",
        "      - ./runner-scenario.toml:/scenario/scenario.toml",
        "      - ./output:/app/output",
        "    command: [\"/scenario/scenario.toml\", \"/app/output/score.json\"]",
        "    depends_on:"]
    ++ runnerDependsLines all_services
    ++ ["    networks:", "      - agent-network", ""]
    ++ ["networks:", "  agent-network:", "    driver: bridge", ""])

/-- `generate_docker_compose(config)`. -/
def generate_docker_compose (config : Config) : PyResult String := do
  let ls ← generate_docker_composeLines config
  pure (String.intercalate "\n" ls)

/-! ## The environment-template generator (`generate_env_example`) -/

/-- The collection loop over one owner's EnvVar list: each entry goes to
the required list (no `default` key) or the optional list (has one),
paired with the owner tag computed by `getOwner` (`"green-agent"` for the
green agent, `role["name"]` for a role). -/
def splitVarsM (getOwner : PyResult Value) : List Value → PyResult (List (Value × Value) × List (Value × Value))
  | [] => pure ([], [])
  | var :: rest => do
    let hasDef ← pyContains var "default"
    let owner ← getOwner
    let (req, opt) ← splitVarsM getOwner rest
    if hasDef then
      pure (req, (owner, var) :: opt)
    else
      pure ((owner, var) :: req, opt)

/-- The collection loop over all roles. -/
def collectRolesEnvM : List Value → PyResult (List (Value × Value) × List (Value × Value))
  | [] => pure ([], [])
  | role :: rest => do
    let role_env ← pyGet role "environment" (.list [])
    let vars ← pyIter role_env
    let (req₁, opt₁) ← splitVarsM (pySubscr role "name") vars
    let (req₂, opt₂) ← collectRolesEnvM rest
    pure (req₁ ++ req₂, opt₁ ++ opt₂)

/-- The required-variables section body: `# <owner>` then `NAME=` per
entry. -/
def requiredLinesM : List (Value × Value) → PyResult (List String)
  | [] => pure []
  | (owner, var) :: rest => do
    let n ← pySubscr var "name"
    let restL ← requiredLinesM rest
    pure (("# " ++ pyStr owner) :: (pyStr n ++ "=") :: restL)

/-- The optional-variables section body: a single commented line
`# <owner>: NAME=<default>` per entry. -/
def optionalLinesM : List (Value × Value) → PyResult (List String)
  | [] => pure []
  | (owner, var) :: rest => do
    let n ← pySubscr var "name"
    let d ← pySubscr var "default"
    let restL ← optionalLinesM rest
    pure (("# " ++ pyStr owner ++ ": " ++ pyStr n ++ "=" ++ pyStr d) :: restL)

/-- The required-variables section (`if all_required_vars: …`). -/
def requiredSectionM (vs : List (Value × Value)) : PyResult (List String) :=
  if vs.isEmpty then pure []
  else do
    let body ← requiredLinesM vs
    pure ("# Required variables (no defaults)" :: body ++ [""])

/-- The optional-variables section (`if all_optional_with_defaults: …`). -/
def optionalSectionM (vs : List (Value × Value)) : PyResult (List String) :=
  if vs.isEmpty then pure []
  else do
    let body ← optionalLinesM vs
    pure ("# Optional variables (defaults are set in docker-compose.yml)" :: body ++ [""])

/-- `generate_env_example(config)`, as the list of output lines. -/
def generate_env_exampleLines (config : Config) : PyResult (List String) := do
  let green_agent ←
    match config.lookup "green_agent" with
    | some v => pure v
    | none => PyResult.raised
  let participants := (config.lookup "participants").getD (.table [])
  let required_roles ← pyGet participants "required_roles" (.list [])
  let green_env ← pyGet green_agent "environment" (.list [])
  let gVars ← pyIter green_env
  let (gReq, gOpt) ← splitVarsM (pure (Value.str "green-agent")) gVars
  let roles ← pyIter required_roles
  let (rReq, rOpt) ← collectRolesEnvM roles
  let all_required_vars := gReq ++ rReq
  let all_optional_with_defaults := gOpt ++ rOpt
  let reqPart ← requiredSectionM all_required_vars
  let optPart ← optionalSectionM all_optional_with_defaults
  pure (["# Environment variables for agents",
         "# Copy this file to .env and fill in the required values",
         ""] ++ reqPart ++ optPart)

/-- `generate_env_example(config)`. -/
def generate_env_example (config : Config) : PyResult String := do
  let ls ← generate_env_exampleLines config
  pure (String.intercalate "\n" ls)

/-! ## The runner-scenario generator (`generate_runner_scenario`) -/

/-- The per-value rendering of one extra field or pass-through entry
(`isinstance` chain of the source: string quoted, boolean lowercase,
number bare, sequence as Python's literal list text; a nested mapping
matches no branch and yields no line). -/
def renderKV (key : String) (v : Value) : Option String :=
  match v with
  | .str s => some (key ++ " = \"" ++ s ++ "\"")
  | .bool b => some (key ++ " = " ++ cond b "true" "false")
  | .int n => some (key ++ " = " ++ toString n)
  | .list xs => some (key ++ " = " ++ pyRepr (.list xs))
  | .table _ => none

/-- The re-emitted environment sub-tables (`[[<tbl>]]` with a quoted
`name` and, when present, a quoted `default`). -/
def scenarioEnvLinesM (tbl : String) : List Value → PyResult (List String)
  | [] => pure []
  | var :: rest => do
    let n ← pySubscr var "name"
    let hasDef ← pyContains var "default"
    let defPart ←
      if hasDef then do
        let d ← pySubscr var "default"
        pure ["default = \"" ++ pyStr d ++ "\""]
      else
        pure []
    let restL ← scenarioEnvLinesM tbl rest
    pure (("[[" ++ tbl ++ "]]") :: ("name = \"" ++ pyStr n ++ "\"") :: defPart ++ restL)

/-- The re-emitted environment block of one owner in the rewritten
scenario (the Python snippet `if <env>: lines.append(""); for var in
<env>: …`, repeated for the green agent and for each role). -/
def scenarioEnvSectionM (tbl : String) (env : Value) : PyResult (List String) :=
  if pyTruthy env then do
    let vars ← pyIter env
    let ls ← scenarioEnvLinesM tbl vars
    pure ("" :: ls)
  else
    pure []

/-- One role's `[[participants]]` entry. -/
def participantLinesM (role : Value) : PyResult (List String) := do
  let n ← pySubscr role "name"
  let p ← pySubscr role "port"
  let items ← pyItems role
  let extras := (items.filter (fun kv => !(["name", "image", "port", "environment"].contains kv.1))).filterMap
    (fun kv => renderKV kv.1 kv.2)
  let role_env ← pyGet role "environment" (.list [])
  let envPart ← scenarioEnvSectionM "participants.environment" role_env
  pure (["[[participants]]",
         "role = \"" ++ pyStr n ++ "\"",
         "endpoint = \"http://" ++ pyStr n ++ ":" ++ pyStr p ++ "\""]
    ++ extras ++ envPart ++ [""])

/-- The `[[participants]]` entries of all roles, in document order. -/
def participantsLinesM : List Value → PyResult (List String)
  | [] => pure []
  | role :: rest => do
    let block ← participantLinesM role
    let restL ← participantsLinesM rest
    pure (block ++ restL)

/-- One pass-through section: its header, then (for a mapping value) its
entries rendered per value kind, then a blank line. -/
def sectionLines (name : String) (v : Value) : List String :=
  ("[" ++ name ++ "]") ::
    (match v with
     | .table kvs => kvs.filterMap (fun kv => renderKV kv.1 kv.2)
     | _ => []) ++ [""]

/-- All pass-through sections: every top-level key other than
`green_agent` and `participants`, in document order. -/
def passThroughLines (config : Config) : List String :=
  (config.filter (fun kv => !(["green_agent", "participants"].contains kv.1))).flatMap
    (fun kv => sectionLines kv.1 kv.2)

/-- `generate_runner_scenario(config)`, as the list of output lines. -/
def generate_runner_scenarioLines (config : Config) : PyResult (List String) := do
  let green_agent ←
    match config.lookup "green_agent" with
    | some v => pure v
    | none => PyResult.raised
  let participants := (config.lookup "participants").getD (.table [])
  let required_roles ← pyGet participants "required_roles" (.list [])
  let gPort ← pySubscr green_agent "port"
  let items ← pyItems green_agent
  let gExtras := (items.filter (fun kv => !(["image", "port", "environment"].contains kv.1))).filterMap
    (fun kv => renderKV kv.1 kv.2)
  let green_env ← pyGet green_agent "environment" (.list [])
  let gEnvPart ← scenarioEnvSectionM "green_agent.environment" green_env
  let roles ← pyIter required_roles
  let roleBlocks ← participantsLinesM roles
  pure (["[green_agent]",
         "endpoint = \"http://green-agent:" ++ pyStr gPort ++ "\""]
    ++ gExtras ++ gEnvPart ++ [""]
    ++ roleBlocks
    ++ passThroughLines config)

/-- `generate_runner_scenario(config)`. -/
def generate_runner_scenario (config : Config) : PyResult String := do
  let ls ← generate_runner_scenarioLines config
  pure (String.intercalate "\n" ls)

/-! ## The CLI driver (`main`) -/

/-- Python's whitespace set for `str.strip()` with no argument. -/
def pyWhitespaceChar (c : Char) : Bool :=
  c = ' ' || c = '\t' || c = '\n' || c = '\r' || c = '\x0b' || c = '\x0c'

/-- Python `s.strip()`: the string without leading and trailing
whitespace. -/
def pyStrip (s : String) : String :=
  String.mk (((s.data.dropWhile pyWhitespaceChar).reverse.dropWhile pyWhitespaceChar).reverse)

/-- The files `main` writes into the output directory for a parsed
document, in write order, paired with the run's outcome.  The compose file
is written before the runner scenario is generated, which is written
before the environment template is generated; `.env.example` is written
only when the template's stripped content is non-empty. -/
def mainOutputs (config : Config) : List (String × String) × PyResult Unit :=
  match validate_config config with
  | .exited m => ([], .exited m)
  | .raised => ([], .raised)
  | .ok _ =>
    match generate_docker_compose config with
    | .exited m => ([], .exited m)
    | .raised => ([], .raised)
    | .ok compose =>
      match generate_runner_scenario config with
      | .exited m => ([("docker-compose.yml", compose)], .exited m)
      | .raised => ([("docker-compose.yml", compose)], .raised)
      | .ok scenario =>
        match generate_env_example config with
        | .exited m => ([("docker-compose.yml", compose), ("runner-scenario.toml", scenario)], .exited m)
        | .raised => ([("docker-compose.yml", compose), ("runner-scenario.toml", scenario)], .raised)
        | .ok env =>
          if (pyStrip env).data.isEmpty then
            ([("docker-compose.yml", compose), ("runner-scenario.toml", scenario)], .ok ())
          else
            ([("docker-compose.yml", compose), ("runner-scenario.toml", scenario), (".env.example", env)], .ok ())

/-- An observable filesystem effect of one run of `main`. -/
inductive Effect where
  | mkdirOutputDir : Effect
  | writeFile : String → String → Effect
deriving DecidableEq, Repr

/-- The filesystem effects of `main`, in program order: nothing when the
input path does not exist; otherwise the output directory is created
first, then the document is parsed (`parsed = none` models a fatal parse
error) and validated, and only then are files written.  The boolean is
whether the run succeeded. -/
def mainEffects (inputExists : Bool) (parsed : Option Config) : List Effect × Bool :=
  if inputExists then
    match parsed with
    | none => ([Effect.mkdirOutputDir], false)
    | some config =>
      let files := (mainOutputs config).1
      let done :=
        match (mainOutputs config).2 with
        | .ok _ => true
        | _ => false
      (Effect.mkdirOutputDir :: files.map (fun f => Effect.writeFile f.1 f.2), done)
  else
    ([], false)

/-! ## Well-formed document shapes

The predicates below capture the shapes a TOML document of the documented
form parses to: the green agent is a mapping with `image` and `port`, the
roles are a non-empty sequence of mappings each with `name`, `image` and
`port`, and every declared `environment` value is a sequence of mappings
each carrying a `name`.  Under these shapes every generator runs without
raising. -/

/-- One EnvVar entry: a mapping with a `name` key. -/
def envVarOk : Value → Bool
  | .table kvs => (kvs.lookup "name").isSome
  | _ => false

/-- A declared `environment` value: a sequence of EnvVar entries. -/
def envFieldOk : Value → Bool
  | .list vars => vars.all envVarOk
  | _ => false

/-- The green agent entry: a mapping with `image` and `port`, whose
`environment` (if declared) is a sequence of EnvVar entries. -/
def agentOk : Value → Bool
  | .table kvs =>
    (kvs.lookup "image").isSome && (kvs.lookup "port").isSome &&
      (match kvs.lookup "environment" with
       | none => true
       | some e => envFieldOk e)
  | _ => false

/-- A role entry: a mapping with `name`, `image` and `port`, whose
`environment` (if declared) is a sequence of EnvVar entries. -/
def roleOk : Value → Bool
  | .table kvs =>
    (kvs.lookup "name").isSome && (kvs.lookup "image").isSome && (kvs.lookup "port").isSome &&
      (match kvs.lookup "environment" with
       | none => true
       | some e => envFieldOk e)
  | _ => false

/-- A validated, well-shaped document: `green_agent` present and well
shaped, `participants` (when present) a mapping whose `required_roles`
defaults to an empty sequence, and at least one well-shaped role. -/
def configOk (config : Config) : Bool :=
  (match config.lookup "green_agent" with
   | some g => agentOk g
   | none => false) &&
  (match (config.lookup "participants").getD (.table []) with
   | .table pkvs =>
     (match (pkvs.lookup "required_roles").getD (.list []) with
      | .list roles => !roles.isEmpty && roles.all roleOk
      | _ => false)
   | _ => false)

/-- The key/value pairs of a mapping value (empty for other kinds). -/
def fields : Value → List (String × Value)
  | .table kvs => kvs
  | _ => []

/-- Field lookup with a placeholder default (only used under shapes where
the key is present). -/
def fieldD (kvs : List (String × Value)) (k : String) : Value :=
  (kvs.lookup k).getD (.str "")

/-- The green agent mapping of a well-shaped document. -/
def greenKVs (config : Config) : List (String × Value) :=
  match config.lookup "green_agent" with
  | some (.table kvs) => kvs
  | _ => []

/-- `participants.required_roles` of a well-shaped document. -/
def roleList (config : Config) : List Value :=
  match (config.lookup "participants").getD (.table []) with
  | .table pkvs =>
    match (pkvs.lookup "required_roles").getD (.list []) with
    | .list roles => roles
    | _ => []
  | _ => []

/-- The declared EnvVar entries of an owner's mapping (empty when no
`environment` sequence is declared). -/
def envList (kvs : List (String × Value)) : List Value :=
  match kvs.lookup "environment" with
  | some (.list vars) => vars
  | _ => []

def nameOf (r : Value) : Value := fieldD (fields r) "name"

def portOf (r : Value) : Value := fieldD (fields r) "port"

def imageOf (r : Value) : Value := fieldD (fields r) "image"

/-- Whether an EnvVar entry declares a `default`. -/
def hasDefault (var : Value) : Bool := ((fields var).lookup "default").isSome

def varNameOf (var : Value) : Value := fieldD (fields var) "name"

def defaultOf (var : Value) : Value := fieldD (fields var) "default"

/-! ## Pure characterizations of the generated artifacts -/

/-- One compose environment line: the literal default when the EnvVar
declares one, the `${NAME}` substitution placeholder otherwise. -/
def composeEnvLine (var : Value) : String :=
  if hasDefault var then
    "      - " ++ pyStr (varNameOf var) ++ "=" ++ pyStr (defaultOf var)
  else
    "      - " ++ pyStr (varNameOf var) ++ "=$\x7b" ++ pyStr (varNameOf var) ++ "\x7d"

/-- An agent service's environment block: absent when the owner declares
no EnvVars. -/
def composeEnvBlock (env : List Value) : List String :=
  if env.isEmpty then [] else "    environment:" :: env.map composeEnvLine

/-- The green agent service's dependency block: one `- <name>` entry per
role, no health condition. -/
def greenDependsBlock (roles : List Value) : List String :=
  if roles.isEmpty then [] else "    depends_on:" :: roles.map (fun r => "      - " ++ pyStr (nameOf r))

/-- The runner service's dependency block: the green agent then every
role, each entry gated on `service_healthy`. -/
def runnerDependsBlock (roles : List Value) : List String :=
  "    depends_on:" :: runnerDependsLines (Value.str "green-agent" :: roles.map nameOf)

/-- The compose file up to (and including) the green agent's environment
block. -/
def composePre (config : Config) : List String :=
  ["# Auto-generated Docker Compose file from scenario.toml",
   "# Do not edit manually - regenerate using generate_compose.py",
   "",
   "version: '3.8'",
   "",
   "services:",
   "  green-agent:",
   "    image: " ++ pyStr (fieldD (greenKVs config) "image"),
   "    container_name: green-agent",
   "    command: [\"--host\", \"0.0.0.0\", \"--port\", \"" ++ pyStr (fieldD (greenKVs config) "port")
     ++ "\", \"--card-url\", \"http://green-agent:" ++ pyStr (fieldD (greenKVs config) "port") ++ "\"]",
   "    healthcheck:",
   "      test: [\"CMD\", \"python\", \"-c\", \"import urllib.request; urllib.request.urlopen('http://localhost:"
     ++ pyStr (fieldD (greenKVs config) "port") ++ "/.well-known/agent-card.json')\"]",
   "      interval: 5s",
   "      timeout: 3s",
   "      retries: 10",
   "      start_period: 30s"]
  ++ composeEnvBlock (envList (greenKVs config))

/-- One role's compose service block. -/
def roleBlockPure (r : Value) : List String :=
  ["  " ++ pyStr (nameOf r) ++ ":",
   "    image: " ++ pyStr (imageOf r),
   "    container_name: " ++ pyStr (nameOf r),
   "    command: [\"--host\", \"0.0.0.0\", \"--port\", \"" ++ pyStr (portOf r)
     ++ "\", \"--card-url\", \"http://" ++ pyStr (nameOf r) ++ ":" ++ pyStr (portOf r) ++ "\"]",
   "    healthcheck:",
   "      test: [\"CMD\", \"python\", \"-c\", \"import urllib.request; urllib.request.urlopen('http://localhost:"
     ++ pyStr (portOf r) ++ "/.well-known/agent-card.json')\"]",
   "      interval: 5s",
   "      timeout: 3s",
   "      retries: 10",
   "      start_period: 30s"]
  ++ composeEnvBlock (envList (fields r))
  ++ ["    networks:", "      - agent-network", ""]

/-- The compose file between the green agent's dependency block and the
runner's dependency block. -/
def composeMid (config : Config) : List String :=
  ["    networks:", "      - agent-network", ""]
  ++ (roleList config).flatMap roleBlockPure
  ++ ["  agentbeats-runner:",
      "    image: ghcr.io/komyo-ai/agentbeats-runner:latest",
      "    container_name: agentbeats-runner",
      "    volumes:",
      "      - ./runner-scenario.toml:/scenario/scenario.toml",
      "      - ./output:/app/output",
      "    command: [\"/scenario/scenario.toml\", \"/app/output/score.json\"]"]

/-- The compose file after the runner's dependency block. -/
def composePost : List String :=
  ["    networks:", "      - agent-network", "",
   "networks:", "  agent-network:", "    driver: bridge", ""]

/-- The whole compose file of a well-shaped document, as lines. -/
def composePure (config : Config) : List String :=
  composePre config ++ greenDependsBlock (roleList config) ++ composeMid config
  ++ runnerDependsBlock (roleList config) ++ composePost

/-- One owner/EnvVar pair's lines in the template's required section. -/
def reqLinePure (p : Value × Value) : List String :=
  ["# " ++ pyStr p.1, pyStr (varNameOf p.2) ++ "="]

/-- One owner/EnvVar pair's line in the template's optional section. -/
def optLinePure (p : Value × Value) : List String :=
  ["# " ++ pyStr p.1 ++ ": " ++ pyStr (varNameOf p.2) ++ "=" ++ pyStr (defaultOf p.2)]

def reqSectionPure (vs : List (Value × Value)) : List String :=
  if vs.isEmpty then [] else "# Required variables (no defaults)" :: vs.flatMap reqLinePure ++ [""]

def optSectionPure (vs : List (Value × Value)) : List String :=
  if vs.isEmpty then [] else
    "# Optional variables (defaults are set in docker-compose.yml)" :: vs.flatMap optLinePure ++ [""]

/-- Every EnvVar of the document, tagged with its owner, in traversal
order: the green agent's first, then each role's in document order. -/
def allEnvPure (config : Config) : List (Value × Value) :=
  (envList (greenKVs config)).map (fun v => (Value.str "green-agent", v))
  ++ (roleList config).flatMap (fun r => (envList (fields r)).map (fun v => (nameOf r, v)))

/-- The whole environment template of a well-shaped document, as lines. -/
def envTemplatePure (config : Config) : List String :=
  ["# Environment variables for agents",
   "# Copy this file to .env and fill in the required values",
   ""]
  ++ reqSectionPure ((allEnvPure config).filter (fun p => !hasDefault p.2))
  ++ optSectionPure ((allEnvPure config).filter (fun p => hasDefault p.2))

/-- One EnvVar's re-emitted sub-table in the rewritten scenario. -/
def scenarioEnvTable (tbl : String) (var : Value) : List String :=
  ("[[" ++ tbl ++ "]]") :: ("name = \"" ++ pyStr (varNameOf var) ++ "\"") ::
    (if hasDefault var then ["default = \"" ++ pyStr (defaultOf var) ++ "\""] else [])

/-- An owner's re-emitted environment block in the rewritten scenario. -/
def scenarioEnvBlock (tbl : String) (env : List Value) : List String :=
  if env.isEmpty then [] else "" :: env.flatMap (scenarioEnvTable tbl)

/-- The extra (non-Docker-specific) fields of a mapping, rendered per
value kind. -/
def extrasPure (kvs : List (String × Value)) (dropKeys : List String) : List String :=
  (kvs.filter (fun kv => !(dropKeys.contains kv.1))).filterMap (fun kv => renderKV kv.1 kv.2)

/-- One role's `[[participants]]` entry in the rewritten scenario. -/
def participantBlockPure (r : Value) : List String :=
  ["[[participants]]",
   "role = \"" ++ pyStr (nameOf r) ++ "\"",
   "endpoint = \"http://" ++ pyStr (nameOf r) ++ ":" ++ pyStr (portOf r) ++ "\""]
  ++ extrasPure (fields r) ["name", "image", "port", "environment"]
  ++ scenarioEnvBlock "participants.environment" (envList (fields r))
  ++ [""]

/-- The whole rewritten scenario of a well-shaped document, as lines. -/
def scenarioPure (config : Config) : List String :=
  ["[green_agent]",
   "endpoint = \"http://green-agent:" ++ pyStr (fieldD (greenKVs config) "port") ++ "\""]
  ++ extrasPure (greenKVs config) ["image", "port", "environment"]
  ++ scenarioEnvBlock "green_agent.environment" (envList (greenKVs config))
  ++ [""]
  ++ (roleList config).flatMap participantBlockPure
  ++ passThroughLines config

/-! ## Destructuring well-shaped values -/

theorem envVarOk_destruct {v : Value} (h : envVarOk v = true) :
    ∃ kvs n, v = Value.table kvs ∧ kvs.lookup "name" = some n := by
  cases v <;> simp only [envVarOk] at h
  case table kvs =>
    obtain ⟨n, hn⟩ := Option.isSome_iff_exists.mp h
    exact ⟨kvs, n, rfl, hn⟩
  all_goals exact absurd h (by decide)

theorem envOpt_destruct {kvs : List (String × Value)}
    (h : (match kvs.lookup "environment" with
          | none => true
          | some e => envFieldOk e) = true) :
    (kvs.lookup "environment").getD (.list []) = .list (envList kvs)
      ∧ (envList kvs).all envVarOk = true := by
  cases he : kvs.lookup "environment" with
  | none => simp [envList, he]
  | some e =>
    rw [he] at h
    cases e <;> simp only [envFieldOk] at h
    case list vars => simp [envList, he, h]
    all_goals exact absurd h (by decide)

theorem agentOk_destruct {v : Value} (h : agentOk v = true) :
    ∃ kvs i p, v = Value.table kvs ∧ kvs.lookup "image" = some i ∧ kvs.lookup "port" = some p
      ∧ (kvs.lookup "environment").getD (.list []) = .list (envList kvs)
      ∧ (envList kvs).all envVarOk = true := by
  cases v <;> simp only [agentOk] at h
  case table kvs =>
    rw [Bool.and_eq_true, Bool.and_eq_true] at h
    obtain ⟨⟨hi, hp⟩, he⟩ := h
    obtain ⟨i, hi⟩ := Option.isSome_iff_exists.mp hi
    obtain ⟨p, hp⟩ := Option.isSome_iff_exists.mp hp
    obtain ⟨he1, he2⟩ := envOpt_destruct he
    exact ⟨kvs, i, p, rfl, hi, hp, he1, he2⟩
  all_goals exact absurd h (by decide)

theorem roleOk_destruct {v : Value} (h : roleOk v = true) :
    ∃ kvs n i p, v = Value.table kvs ∧ kvs.lookup "name" = some n
      ∧ kvs.lookup "image" = some i ∧ kvs.lookup "port" = some p
      ∧ (kvs.lookup "environment").getD (.list []) = .list (envList kvs)
      ∧ (envList kvs).all envVarOk = true := by
  cases v <;> simp only [roleOk] at h
  case table kvs =>
    rw [Bool.and_eq_true, Bool.and_eq_true, Bool.and_eq_true] at h
    obtain ⟨⟨⟨hn, hi⟩, hp⟩, he⟩ := h
    obtain ⟨n, hn⟩ := Option.isSome_iff_exists.mp hn
    obtain ⟨i, hi⟩ := Option.isSome_iff_exists.mp hi
    obtain ⟨p, hp⟩ := Option.isSome_iff_exists.mp hp
    obtain ⟨he1, he2⟩ := envOpt_destruct he
    exact ⟨kvs, n, i, p, rfl, hn, hi, hp, he1, he2⟩
  all_goals exact absurd h (by decide)

theorem configOk_destruct {config : Config} (h : configOk config = true) :
    config.lookup "green_agent" = some (.table (greenKVs config))
      ∧ agentOk (.table (greenKVs config)) = true
      ∧ (∃ pkvs, (config.lookup "participants").getD (.table []) = .table pkvs
          ∧ (pkvs.lookup "required_roles").getD (.list []) = .list (roleList config))
      ∧ roleList config ≠ []
      ∧ (roleList config).all roleOk = true := by
  rw [configOk, Bool.and_eq_true] at h
  obtain ⟨hg, hr⟩ := h
  cases hga : config.lookup "green_agent" with
  | none => rw [hga] at hg; exact absurd hg (by decide)
  | some g =>
    rw [hga] at hg
    obtain ⟨gkvs, _, _, hgt, -⟩ := agentOk_destruct hg
    subst hgt
    have hgk : greenKVs config = gkvs := by simp [greenKVs, hga]
    cases hpv : (config.lookup "participants").getD (.table [])
    case table pkvs =>
      simp only [hpv] at hr
      cases hrr : (pkvs.lookup "required_roles").getD (.list [])
      case list roles =>
        simp only [hrr, Bool.and_eq_true] at hr
        have hrl : roleList config = roles := by simp [roleList, hpv, hrr]
        refine ⟨by rw [hgk], by rw [hgk]; exact hg, ⟨pkvs, rfl, by rw [hrl]; exact hrr⟩, ?_, ?_⟩
        · rw [hrl]
          intro hnil
          rw [hnil] at hr
          exact absurd hr.1 (by decide)
        · rw [hrl]; exact hr.2
      all_goals (simp only [hrr] at hr; exact absurd hr (by decide))
    all_goals (simp only [hpv] at hr; exact absurd hr (by decide))

/-! ## The compose generator on well-shaped documents -/

theorem composeEnvLinesM_eq (vars : List Value) (h : vars.all envVarOk = true) :
    composeEnvLinesM vars = .ok (vars.map composeEnvLine) := by
  induction vars with
  | nil => rfl
  | cons v rest ih =>
    rw [List.all_cons, Bool.and_eq_true] at h
    obtain ⟨hv, hrest⟩ := h
    obtain ⟨kvs, n, rfl, hn⟩ := envVarOk_destruct hv
    cases hd : kvs.lookup "default" with
    | some d =>
      simp [composeEnvLinesM, pySubscr, pyContains, hn, hd, ih hrest,
            composeEnvLine, hasDefault, fields, varNameOf, defaultOf, fieldD]
    | none =>
      simp [composeEnvLinesM, pySubscr, pyContains, hn, hd, ih hrest,
            composeEnvLine, hasDefault, fields, varNameOf, defaultOf, fieldD]

theorem envSectionM_eq (vars : List Value) (h : vars.all envVarOk = true) :
    envSectionM (.list vars) = .ok (composeEnvBlock vars) := by
  cases vars with
  | nil => rfl
  | cons v rest =>
    simp [envSectionM, pyTruthy, pyIter, composeEnvLinesM_eq _ h, composeEnvBlock]

theorem greenDependsLinesM_eq (roles : List Value) (h : roles.all roleOk = true) :
    greenDependsLinesM roles = .ok (roles.map (fun r => "      - " ++ pyStr (nameOf r))) := by
  induction roles with
  | nil => rfl
  | cons r rest ih =>
    rw [List.all_cons, Bool.and_eq_true] at h
    obtain ⟨hr, hrest⟩ := h
    obtain ⟨kvs, n, _, _, hrt, hn, -⟩ := roleOk_destruct hr
    subst hrt
    simp [greenDependsLinesM, pySubscr, hn, ih hrest, nameOf, fields, fieldD]

theorem roleServiceLinesM_eq (r : Value) (h : roleOk r = true) :
    roleServiceLinesM r = .ok (roleBlockPure r) := by
  obtain ⟨kvs, n, i, p, hrt, hn, hi, hp, he, hvars⟩ := roleOk_destruct h
  subst hrt
  simp [roleServiceLinesM, pySubscr, pyGet, hn, hi, hp, he, envSectionM_eq _ hvars,
        roleBlockPure, nameOf, imageOf, portOf, fields, fieldD]

theorem rolesServiceLinesM_eq (roles : List Value) (h : roles.all roleOk = true) :
    rolesServiceLinesM roles = .ok (roles.flatMap roleBlockPure) := by
  induction roles with
  | nil => rfl
  | cons r rest ih =>
    rw [List.all_cons, Bool.and_eq_true] at h
    obtain ⟨hr, hrest⟩ := h
    simp [rolesServiceLinesM, roleServiceLinesM_eq r hr, ih hrest]

theorem allServicesM_eq (roles : List Value) (h : roles.all roleOk = true) :
    allServicesM roles = .ok (roles.map nameOf) := by
  induction roles with
  | nil => rfl
  | cons r rest ih =>
    rw [List.all_cons, Bool.and_eq_true] at h
    obtain ⟨hr, hrest⟩ := h
    obtain ⟨kvs, n, _, _, hrt, hn, -⟩ := roleOk_destruct hr
    subst hrt
    simp [allServicesM, pySubscr, hn, ih hrest, nameOf, fields, fieldD]

/-- On a well-shaped document the compose generator succeeds and produces
exactly the characterized lines. -/
theorem generate_docker_compose_chars (config : Config) (h : configOk config = true) :
    generate_docker_compose config = .ok (String.intercalate "\n" (composePure config)) := by
  obtain ⟨hga, hgok, ⟨pkvs, hpv, hrr⟩, hne, hall⟩ := configOk_destruct h
  obtain ⟨gkvs, i, p, hgt, hi, hp, he, hvars⟩ := agentOk_destruct hgok
  have hgk : greenKVs config = gkvs := by
    injection hgt with hgt'
  rw [← hgk] at hi hp he hvars
  have hdep : greenDependsBlock (roleList config) =
      "    depends_on:" :: (roleList config).map (fun r => "      - " ++ pyStr (nameOf r)) := by
    rw [greenDependsBlock, if_neg]
    simp [List.isEmpty_iff, hne]
  have htr : pyTruthy (.list (roleList config)) = true := by
    simp [pyTruthy, List.isEmpty_iff, hne]
  rw [generate_docker_compose, generate_docker_composeLines]
  rw [hga]
  simp only [PyResult.ok_bind, PyResult.pure_eq]
  rw [hpv]
  simp only [pyGet, PyResult.ok_bind, hrr]
  rw [hgt] at hga
  simp only [pySubscr, ← hgk, hi, hp, he, PyResult.ok_bind,
    envSectionM_eq _ hvars, htr, if_true, pyIter,
    greenDependsLinesM_eq _ hall, rolesServiceLinesM_eq _ hall, allServicesM_eq _ hall]
  simp [composePure, composePre, composeMid, composePost,
    runnerDependsBlock, hdep, fieldD, hi, hp]

/-! ## The environment-template generator on well-shaped documents -/

theorem filter_flatMap' {α β : Type} (g : α → List β) (p : β → Bool) (l : List α) :
    (l.flatMap g).filter p = l.flatMap (fun x => (g x).filter p) := by
  induction l with
  | nil => rfl
  | cons x rest ih => simp [List.flatMap_cons, List.filter_append, ih]

theorem all_of_filter {α : Type} (p q : α → Bool) (l : List α) (h : l.all p = true) :
    (l.filter q).all p = true := by
  rw [List.all_eq_true] at h ⊢
  intro a ha
  exact h a (List.mem_filter.mp ha).1

theorem all_filter_self {α : Type} (q : α → Bool) (l : List α) :
    (l.filter q).all q = true := by
  rw [List.all_eq_true]
  intro a ha
  exact (List.mem_filter.mp ha).2

theorem splitVarsM_eq (w : Value) (getOwner : PyResult Value) (hw : getOwner = .ok w)
    (vars : List Value) (h : vars.all envVarOk = true) :
    splitVarsM getOwner vars =
      .ok ((vars.filter (fun v => !hasDefault v)).map (fun v => (w, v)),
           (vars.filter (fun v => hasDefault v)).map (fun v => (w, v))) := by
  induction vars with
  | nil => rfl
  | cons v rest ih =>
    rw [List.all_cons, Bool.and_eq_true] at h
    obtain ⟨hv, hrest⟩ := h
    obtain ⟨kvs, n, rfl, hn⟩ := envVarOk_destruct hv
    rw [hw] at ih
    have ih' := ih hrest
    cases hd : kvs.lookup "default" with
    | some d =>
      have hdt : hasDefault (Value.table kvs) = true := by simp [hasDefault, fields, hd]
      simp [splitVarsM, pyContains, hd, hw, ih', List.filter_cons, hdt]
    | none =>
      have hdt : hasDefault (Value.table kvs) = false := by simp [hasDefault, fields, hd]
      simp [splitVarsM, pyContains, hd, hw, ih', List.filter_cons, hdt]

theorem collectRolesEnvM_eq (roles : List Value) (h : roles.all roleOk = true) :
    collectRolesEnvM roles =
      .ok (roles.flatMap (fun r => ((envList (fields r)).filter (fun v => !hasDefault v)).map (fun v => (nameOf r, v))),
           roles.flatMap (fun r => ((envList (fields r)).filter (fun v => hasDefault v)).map (fun v => (nameOf r, v)))) := by
  induction roles with
  | nil => rfl
  | cons r rest ih =>
    rw [List.all_cons, Bool.and_eq_true] at h
    obtain ⟨hr, hrest⟩ := h
    obtain ⟨kvs, n, i, p, hrt, hn, hi, hp, he, hvars⟩ := roleOk_destruct hr
    subst hrt
    have hname : pySubscr (Value.table kvs) "name" = .ok n := by simp [pySubscr, hn]
    simp [collectRolesEnvM, pyGet, he, pyIter,
      splitVarsM_eq n _ hname _ hvars, ih hrest, nameOf, fields, fieldD, hn]

theorem requiredLinesM_eq (vs : List (Value × Value)) (h : vs.all (fun q => envVarOk q.2) = true) :
    requiredLinesM vs = .ok (vs.flatMap reqLinePure) := by
  induction vs with
  | nil => rfl
  | cons q rest ih =>
    rw [List.all_cons, Bool.and_eq_true] at h
    obtain ⟨hq, hrest⟩ := h
    obtain ⟨owner, var⟩ := q
    have hq' : envVarOk var = true := hq
    obtain ⟨kvs, n, hvt, hn⟩ := envVarOk_destruct hq'
    subst hvt
    simp [requiredLinesM, pySubscr, hn, ih hrest, reqLinePure, varNameOf, fields, fieldD]

theorem optionalLinesM_eq (vs : List (Value × Value))
    (h : vs.all (fun q => envVarOk q.2 && hasDefault q.2) = true) :
    optionalLinesM vs = .ok (vs.flatMap optLinePure) := by
  induction vs with
  | nil => rfl
  | cons q rest ih =>
    rw [List.all_cons, Bool.and_eq_true] at h
    obtain ⟨hq, hrest⟩ := h
    rw [Bool.and_eq_true] at hq
    obtain ⟨hq, hdq⟩ := hq
    obtain ⟨owner, var⟩ := q
    have hq' : envVarOk var = true := hq
    have hdq' : hasDefault var = true := hdq
    obtain ⟨kvs, n, hvt, hn⟩ := envVarOk_destruct hq'
    subst hvt
    rw [hasDefault] at hdq'
    simp only [fields] at hdq'
    obtain ⟨d, hd⟩ := Option.isSome_iff_exists.mp hdq'
    simp [optionalLinesM, pySubscr, hn, hd, ih hrest, optLinePure, varNameOf, defaultOf,
      fields, fieldD]

theorem requiredSectionM_eq (vs : List (Value × Value)) (h : vs.all (fun q => envVarOk q.2) = true) :
    requiredSectionM vs = .ok (reqSectionPure vs) := by
  cases hv : vs.isEmpty with
  | true =>
    rw [List.isEmpty_iff] at hv
    subst hv
    rfl
  | false =>
    rw [requiredSectionM, if_neg (by simp [hv]), reqSectionPure, if_neg (by simp [hv])]
    simp [requiredLinesM_eq vs h]

theorem optionalSectionM_eq (vs : List (Value × Value))
    (h : vs.all (fun q => envVarOk q.2 && hasDefault q.2) = true) :
    optionalSectionM vs = .ok (optSectionPure vs) := by
  cases hv : vs.isEmpty with
  | true =>
    rw [List.isEmpty_iff] at hv
    subst hv
    rfl
  | false =>
    rw [optionalSectionM, if_neg (by simp [hv]), optSectionPure, if_neg (by simp [hv])]
    simp [optionalLinesM_eq vs h]

/-- Every owner/EnvVar pair the document declares is well shaped. -/
theorem allEnvPure_all (config : Config) (h : configOk config = true) :
    (allEnvPure config).all (fun q => envVarOk q.2) = true := by
  obtain ⟨hga, hgok, -, -, hall⟩ := configOk_destruct h
  obtain ⟨gkvs, i, p, hgt, hi, hp, he, hvars⟩ := agentOk_destruct hgok
  have hgk : greenKVs config = gkvs := by injection hgt with hgt'
  rw [← hgk] at hvars
  rw [allEnvPure, List.all_append, Bool.and_eq_true]
  constructor
  · rw [List.all_eq_true]
    intro q hq
    rw [List.mem_map] at hq
    obtain ⟨v, hv, rfl⟩ := hq
    exact List.all_eq_true.mp hvars v hv
  · rw [List.all_eq_true]
    intro q hq
    rw [List.mem_flatMap] at hq
    obtain ⟨r, hrm, hq⟩ := hq
    have hr : roleOk r = true := List.all_eq_true.mp hall r hrm
    obtain ⟨kvs, n, i', p', hrt, hn, hi', hp', he', hvars'⟩ := roleOk_destruct hr
    subst hrt
    rw [List.mem_map] at hq
    obtain ⟨v, hv, rfl⟩ := hq
    simp only [fields] at hv
    exact List.all_eq_true.mp hvars' v hv

/-- On a well-shaped document the environment-template generator succeeds
and produces exactly the characterized sections. -/
theorem generate_env_example_chars (config : Config) (h : configOk config = true) :
    generate_env_example config = .ok (String.intercalate "\n" (envTemplatePure config)) := by
  obtain ⟨hga, hgok, ⟨pkvs, hpv, hrr⟩, hne, hall⟩ := configOk_destruct h
  obtain ⟨gkvs, i, p, hgt, hi, hp, he, hvars⟩ := agentOk_destruct hgok
  have hgk : greenKVs config = gkvs := by injection hgt with hgt'
  rw [← hgk] at hi hp he hvars
  have hsplitR : (allEnvPure config).filter (fun q => !hasDefault q.2) =
      ((envList (greenKVs config)).filter (fun v => !hasDefault v)).map (fun v => (Value.str "green-agent", v))
      ++ (roleList config).flatMap (fun r => ((envList (fields r)).filter (fun v => !hasDefault v)).map (fun v => (nameOf r, v))) := by
    simp [allEnvPure, List.filter_append, List.filter_map, filter_flatMap', Function.comp_def]
  have hsplitO : (allEnvPure config).filter (fun q => hasDefault q.2) =
      ((envList (greenKVs config)).filter (fun v => hasDefault v)).map (fun v => (Value.str "green-agent", v))
      ++ (roleList config).flatMap (fun r => ((envList (fields r)).filter (fun v => hasDefault v)).map (fun v => (nameOf r, v))) := by
    simp [allEnvPure, List.filter_append, List.filter_map, filter_flatMap', Function.comp_def]
  have hallR : ((allEnvPure config).filter (fun q => !hasDefault q.2)).all (fun q => envVarOk q.2) = true :=
    all_of_filter _ _ _ (allEnvPure_all config h)
  have hallO : ((allEnvPure config).filter (fun q => hasDefault q.2)).all
      (fun q => envVarOk q.2 && hasDefault q.2) = true := by
    rw [List.all_eq_true]
    intro q hq
    rw [Bool.and_eq_true]
    exact ⟨List.all_eq_true.mp (all_of_filter _ _ _ (allEnvPure_all config h)) q hq,
           (List.mem_filter.mp hq).2⟩
  rw [generate_env_example, generate_env_exampleLines, hga]
  simp only [PyResult.ok_bind, PyResult.pure_eq]
  rw [hpv]
  simp only [pyGet, PyResult.ok_bind, hrr, he, pyIter,
    splitVarsM_eq (Value.str "green-agent") _ rfl _ hvars,
    collectRolesEnvM_eq _ hall]
  rw [← hsplitR, ← hsplitO]
  simp only [PyResult.ok_bind, requiredSectionM_eq _ hallR, optionalSectionM_eq _ hallO]
  simp [envTemplatePure]

/-! ## The runner-scenario generator on well-shaped documents -/

theorem scenarioEnvLinesM_eq (tbl : String) (vars : List Value) (h : vars.all envVarOk = true) :
    scenarioEnvLinesM tbl vars = .ok (vars.flatMap (scenarioEnvTable tbl)) := by
  induction vars with
  | nil => rfl
  | cons v rest ih =>
    rw [List.all_cons, Bool.and_eq_true] at h
    obtain ⟨hv, hrest⟩ := h
    obtain ⟨kvs, n, rfl, hn⟩ := envVarOk_destruct hv
    cases hd : kvs.lookup "default" with
    | some d =>
      have hdt : hasDefault (Value.table kvs) = true := by simp [hasDefault, fields, hd]
      simp [scenarioEnvLinesM, pySubscr, pyContains, hn, hd, ih hrest,
        scenarioEnvTable, hdt, varNameOf, defaultOf, fields, fieldD]
    | none =>
      have hdt : hasDefault (Value.table kvs) = false := by simp [hasDefault, fields, hd]
      simp [scenarioEnvLinesM, pySubscr, pyContains, hn, hd, ih hrest,
        scenarioEnvTable, hdt, varNameOf, defaultOf, fields, fieldD]

theorem scenarioEnvSectionM_eq (tbl : String) (vars : List Value) (h : vars.all envVarOk = true) :
    scenarioEnvSectionM tbl (.list vars) = .ok (scenarioEnvBlock tbl vars) := by
  cases vars with
  | nil => rfl
  | cons v rest =>
    simp [scenarioEnvSectionM, pyTruthy, pyIter, scenarioEnvLinesM_eq tbl _ h, scenarioEnvBlock]

theorem participantLinesM_eq (r : Value) (h : roleOk r = true) :
    participantLinesM r = .ok (participantBlockPure r) := by
  obtain ⟨kvs, n, i, p, hrt, hn, hi, hp, he, hvars⟩ := roleOk_destruct h
  subst hrt
  simp [participantLinesM, pySubscr, pyGet, pyItems, hn, hp, he,
    scenarioEnvSectionM_eq _ _ hvars,
    participantBlockPure, extrasPure, nameOf, portOf, fields, fieldD]

theorem participantsLinesM_eq (roles : List Value) (h : roles.all roleOk = true) :
    participantsLinesM roles = .ok (roles.flatMap participantBlockPure) := by
  induction roles with
  | nil => rfl
  | cons r rest ih =>
    rw [List.all_cons, Bool.and_eq_true] at h
    obtain ⟨hr, hrest⟩ := h
    simp [participantsLinesM, participantLinesM_eq r hr, ih hrest]

/-- On a well-shaped document the runner-scenario generator succeeds and
produces exactly the characterized lines. -/
theorem generate_runner_scenario_chars (config : Config) (h : configOk config = true) :
    generate_runner_scenario config = .ok (String.intercalate "\n" (scenarioPure config)) := by
  obtain ⟨hga, hgok, ⟨pkvs, hpv, hrr⟩, hne, hall⟩ := configOk_destruct h
  obtain ⟨gkvs, i, p, hgt, hi, hp, he, hvars⟩ := agentOk_destruct hgok
  have hgk : greenKVs config = gkvs := by injection hgt with hgt'
  rw [← hgk] at hi hp he hvars
  rw [generate_runner_scenario, generate_runner_scenarioLines, hga]
  simp only [PyResult.ok_bind, PyResult.pure_eq]
  rw [hpv]
  simp only [pyGet, PyResult.ok_bind, hrr, he, pyIter, pyItems, pySubscr, hp,
    scenarioEnvSectionM_eq _ _ hvars, participantsLinesM_eq _ hall]
  simp [scenarioPure, extrasPure, fieldD, hp]

/-! ## The validator and the driver on well-shaped documents -/

theorem validateRoles_ok (roles : List Value) (h : roles.all roleOk = true) :
    ∀ i : Nat, validateRoles roles i = .ok () := by
  induction roles with
  | nil => intro i; rfl
  | cons r rest ih =>
    intro i
    rw [List.all_cons, Bool.and_eq_true] at h
    obtain ⟨hr, hrest⟩ := h
    obtain ⟨kvs, n, im, p, hrt, hn, hi, hp, -⟩ := roleOk_destruct hr
    subst hrt
    simp [validateRoles, pyContains, hn, hi, hp, ih hrest]

/-- A well-shaped document passes all five validation checks. -/
theorem validate_config_ok (config : Config) (h : configOk config = true) :
    validate_config config = .ok () := by
  obtain ⟨hga, hgok, ⟨pkvs, hpv, hrr⟩, hne, hall⟩ := configOk_destruct h
  obtain ⟨gkvs, i, p, hgt, hi, hp, he, hvars⟩ := agentOk_destruct hgok
  have hgk : greenKVs config = gkvs := by injection hgt
  rw [← hgk] at hi hp
  have hlen : ¬ (roleList config).length < 1 := by
    cases hr : roleList config with
    | nil => exact absurd hr hne
    | cons a l => simp
  rw [validate_config, hga]
  simp only [pyContains, hi, hp, Option.isSome_some, Bool.not_true, Bool.false_eq_true,
    if_false, PyResult.ok_bind]
  rw [hpv]
  simp only [pyGet, PyResult.ok_bind, hrr, pyLen, pyIter, if_neg hlen]
  exact validateRoles_ok _ hall 0

theorem mainOutputs_exited (config : Config) (m : String)
    (h : validate_config config = .exited m) :
    mainOutputs config = ([], .exited m) := by
  simp [mainOutputs, h]

/-- On a well-shaped document the run succeeds and the compose file and the
runner scenario are the first two files written. -/
theorem mainOutputs_configOk (config : Config) (h : configOk config = true) :
    ∃ rest, mainOutputs config =
      (("docker-compose.yml", String.intercalate "\n" (composePure config))
        :: ("runner-scenario.toml", String.intercalate "\n" (scenarioPure config)) :: rest,
       .ok ()) := by
  simp only [mainOutputs, validate_config_ok config h, generate_docker_compose_chars config h,
    generate_runner_scenario_chars config h, generate_env_example_chars config h]
  split
  · exact ⟨[], rfl⟩
  · exact ⟨[(".env.example", String.intercalate "\n" (envTemplatePure config))], rfl⟩

/-- The validator and the three generators run in sequence over the
document; the document each step observes, and the one left afterwards, is
the untouched input (every operation the script performs on the document
is a read; nothing writes into it). -/
def runPipeline (config : Config) : PyResult (String × String × String) × Config :=
  match validate_config config with
  | .exited m => (.exited m, config)
  | .raised => (.raised, config)
  | .ok _ =>
    match generate_docker_compose config with
    | .exited m => (.exited m, config)
    | .raised => (.raised, config)
    | .ok c =>
      match generate_runner_scenario config with
      | .exited m => (.exited m, config)
      | .raised => (.raised, config)
      | .ok s =>
        match generate_env_example config with
        | .exited m => (.exited m, config)
        | .raised => (.raised, config)
        | .ok e => (.ok (c, s, e), config)

/-- Whether a value is a mapping. -/
def isTableV : Value → Bool
  | .table _ => true
  | _ => false

/-- `filterMap renderKV` never emits a line for a mapping-valued field, so
dropping those fields first changes nothing. -/
theorem filterMap_renderKV_drop (l : List (String × Value)) :
    l.filterMap (fun kv => renderKV kv.1 kv.2)
      = (l.filter (fun kv => !isTableV kv.2)).filterMap (fun kv => renderKV kv.1 kv.2) := by
  induction l with
  | nil => rfl
  | cons kv rest ih =>
    obtain ⟨k, v⟩ := kv
    cases v <;> simp [renderKV, isTableV, List.filter_cons] at ih ⊢ <;> exact ih

/-! ## Concrete documents -/

/-- The concrete scenario of the spec's testable-properties section: two
agents, no EnvVars anywhere, no extra sections. -/
def cfgEx : Config :=
  [("green_agent", .table [("image", .str "img:latest"), ("port", .int 8080)]),
   ("participants", .table [("required_roles", .list
      [.table [("name", .str "debater"), ("image", .str "d:latest"), ("port", .int 9000)]])])]

/-- A richer well-shaped document: extra green-agent fields of every
rendered kind plus a nested mapping, EnvVars with and without defaults on
both owners, a pass-through `metadata` section holding a nested mapping,
and a top-level key whose value is not a mapping. -/
def cfgEnvEx : Config :=
  [("green_agent", .table [("image", .str "img:latest"), ("port", .int 8080),
      ("model", .str "gpt-4"), ("debug", .bool true), ("weights", .list [.int 1, .int 2]),
      ("nested", .table [("a", .int 1)]),
      ("environment", .list [.table [("name", .str "API_KEY")],
                             .table [("name", .str "MODEL"), ("default", .str "gpt")]])]),
   ("participants", .table [("required_roles", .list
      [.table [("name", .str "debater"), ("image", .str "d:latest"), ("port", .int 9000),
               ("temperature", .int 7),
               ("environment", .list [.table [("name", .str "DKEY"), ("default", .int 3)],
                                      .table [("name", .str "DSEC")]])]])]),
   ("metadata", .table [("owner", .str "x"), ("n", .int 2), ("deep", .table [("k", .int 1)])]),
   ("flag", .int 5)]

/-- No `green_agent` at all, everything else valid. -/
def cfgMissingGreen : Config :=
  [("participants", .table [("required_roles", .list
      [.table [("name", .str "debater"), ("image", .str "d:latest"), ("port", .int 9000)]])])]

/-- `green_agent.image` missing, everything else valid. -/
def cfgMissingImage : Config :=
  [("green_agent", .table [("port", .int 8080)]),
   ("participants", .table [("required_roles", .list
      [.table [("name", .str "debater"), ("image", .str "d:latest"), ("port", .int 9000)]])])]

/-- `green_agent.port` missing, everything else valid. -/
def cfgMissingPort : Config :=
  [("green_agent", .table [("image", .str "img:latest")]),
   ("participants", .table [("required_roles", .list
      [.table [("name", .str "debater"), ("image", .str "d:latest"), ("port", .int 9000)]])])]

/-- No participant roles, everything else valid. -/
def cfgNoRoles : Config :=
  [("green_agent", .table [("image", .str "img:latest"), ("port", .int 8080)])]

/-- The single role misses `port`, everything else valid. -/
def cfgRoleMissingPort : Config :=
  [("green_agent", .table [("image", .str "img:latest"), ("port", .int 8080)]),
   ("participants", .table [("required_roles", .list
      [.table [("name", .str "debater"), ("image", .str "d:latest")]])])]

/-! ## The claims -/

/-- Claim C1: for an input document with no `environment` sequence
anywhere, the spec says the template generator's output is empty and no
`.env.example` is written.  The code violates this: on the concrete
no-EnvVar document the generator returns the two unconditional header
comment lines, whose stripped content is non-empty, so `main` writes
`.env.example` (while also writing docker-compose.yml and
runner-scenario.toml).  The in-code comment "(if there are any required
env vars)" shows the suppression was intended. -/
theorem claim_C1 :
    envList (greenKVs cfgEx) = []
    ∧ (roleList cfgEx).all (fun r => (envList (fields r)).isEmpty) = true
    ∧ generate_env_example cfgEx =
        .ok "# Environment variables for agents\n# Copy this file to .env and fill in the required values\n"
    ∧ (pyStrip "# Environment variables for agents\n# Copy this file to .env and fill in the required values\n").data.isEmpty = false
    ∧ (mainOutputs cfgEx).1.map Prod.fst =
        ["docker-compose.yml", "runner-scenario.toml", ".env.example"] :=
  ⟨rfl, rfl, rfl, rfl, rfl⟩

/-- Claim C2: each of the five required-field checks fails with its
field-specific exit (the role check naming the failing index) and then no
file is written; any document passing all checks is validated and
proceeds to generation, with docker-compose.yml and runner-scenario.toml
written. -/
theorem claim_C2 :
    mainOutputs cfgMissingGreen =
      ([], .exited "Error: Required field 'green_agent' not found in TOML")
    ∧ mainOutputs cfgMissingImage =
      ([], .exited "Error: Required field 'green_agent.image' not found in TOML")
    ∧ mainOutputs cfgMissingPort =
      ([], .exited "Error: Required field 'green_agent.port' not found in TOML")
    ∧ mainOutputs cfgNoRoles =
      ([], .exited "Error: At least one participant role is required")
    ∧ mainOutputs cfgRoleMissingPort =
      ([], .exited "Error: Required field 'participants.required_roles[0].port' not found in TOML")
    ∧ (∀ config m, validate_config config = .exited m → mainOutputs config = ([], .exited m))
    ∧ (∀ config, configOk config = true → validate_config config = .ok ()
        ∧ ∃ rest, mainOutputs config =
            (("docker-compose.yml", String.intercalate "\n" (composePure config))
              :: ("runner-scenario.toml", String.intercalate "\n" (scenarioPure config)) :: rest,
             .ok ())) := by
  refine ⟨rfl, rfl, rfl, rfl, rfl, mainOutputs_exited, fun config hc => ?_⟩
  exact ⟨validate_config_ok config hc, mainOutputs_configOk config hc⟩

/-- Claim C3: on every well-shaped document the runner service's
dependency block lists exactly the green agent and then every role, each
entry gated on `service_healthy`, while the green agent's own dependency
block lists exactly the roles as bare entries with no condition. -/
theorem claim_C3 (config : Config) (h : configOk config = true) :
    generate_docker_compose config = .ok (String.intercalate "\n"
      (composePre config
        ++ ("    depends_on:" :: (roleList config).map (fun r => "      - " ++ pyStr (nameOf r)))
        ++ composeMid config
        ++ ("    depends_on:" :: (Value.str "green-agent" :: (roleList config).map nameOf).flatMap
              (fun s => ["      " ++ pyStr s ++ ":", "        condition: service_healthy"]))
        ++ composePost)) := by
  obtain ⟨-, -, -, hne, -⟩ := configOk_destruct h
  rw [generate_docker_compose_chars config h]
  have hemp : (roleList config).isEmpty = false := by simp [List.isEmpty_iff, hne]
  simp [composePure, greenDependsBlock, runnerDependsBlock, runnerDependsLines, hemp]

theorem claim_C3_witness :
    generate_docker_compose cfgEx = .ok (String.intercalate "\n"
      (composePre cfgEx
        ++ ("    depends_on:" :: (roleList cfgEx).map (fun r => "      - " ++ pyStr (nameOf r)))
        ++ composeMid cfgEx
        ++ ("    depends_on:" :: (Value.str "green-agent" :: (roleList cfgEx).map nameOf).flatMap
              (fun s => ["      " ++ pyStr s ++ ":", "        condition: service_healthy"]))
        ++ composePost)) :=
  claim_C3 cfgEx rfl

/-- Claim C4: on every well-shaped document the environment template is
the fixed headers, a required section holding exactly the EnvVars without
a `default` (each as a commented owner line and an empty `NAME=`
assignment), and an optional section holding exactly the EnvVars with one
(each a single commented informational line); and the compose file renders
each EnvVar as the literal default when one is declared and as the
`${NAME}` placeholder otherwise. -/
theorem claim_C4 (config : Config) (h : configOk config = true) :
    generate_env_example config = .ok (String.intercalate "\n"
      (["# Environment variables for agents",
        "# Copy this file to .env and fill in the required values",
        ""]
        ++ reqSectionPure ((allEnvPure config).filter (fun q => !hasDefault q.2))
        ++ optSectionPure ((allEnvPure config).filter (fun q => hasDefault q.2))))
    ∧ generate_docker_compose config = .ok (String.intercalate "\n" (composePure config))
    ∧ (∀ var, hasDefault var = true →
        composeEnvLine var = "      - " ++ pyStr (varNameOf var) ++ "=" ++ pyStr (defaultOf var))
    ∧ (∀ var, hasDefault var = false →
        composeEnvLine var =
          "      - " ++ pyStr (varNameOf var) ++ "=$\x7b" ++ pyStr (varNameOf var) ++ "\x7d") := by
  refine ⟨?_, generate_docker_compose_chars config h, fun var hv => ?_, fun var hv => ?_⟩
  · rw [generate_env_example_chars config h]
    simp [envTemplatePure]
  · simp [composeEnvLine, hv]
  · simp [composeEnvLine, hv]

theorem claim_C4_witness :
    generate_env_example cfgEnvEx = .ok (String.intercalate "\n"
      (["# Environment variables for agents",
        "# Copy this file to .env and fill in the required values",
        ""]
        ++ reqSectionPure ((allEnvPure cfgEnvEx).filter (fun q => !hasDefault q.2))
        ++ optSectionPure ((allEnvPure cfgEnvEx).filter (fun q => hasDefault q.2))))
    ∧ generate_docker_compose cfgEnvEx = .ok (String.intercalate "\n" (composePure cfgEnvEx))
    ∧ (∀ var, hasDefault var = true →
        composeEnvLine var = "      - " ++ pyStr (varNameOf var) ++ "=" ++ pyStr (defaultOf var))
    ∧ (∀ var, hasDefault var = false →
        composeEnvLine var =
          "      - " ++ pyStr (varNameOf var) ++ "=$\x7b" ++ pyStr (varNameOf var) ++ "\x7d") :=
  claim_C4 cfgEnvEx rfl

/-- Claim C5: on every well-shaped document the rewritten scenario's green
section is the header and the `endpoint` line built from the declared
port, followed by exactly the non-Docker-specific fields (so `image`,
`port` and `environment` are omitted as top-level fields) rendered per
value kind, then the re-emitted environment sub-tables; each role yields a
`[[participants]]` entry with its `role` and `endpoint` lines and the same
treatment of its remaining fields; strings render quoted, booleans
lowercase, numbers bare, sequences as the literal list text. -/
theorem claim_C5 (config : Config) (h : configOk config = true) :
    generate_runner_scenario config = .ok (String.intercalate "\n"
      (["[green_agent]",
        "endpoint = \"http://green-agent:" ++ pyStr (fieldD (greenKVs config) "port") ++ "\""]
        ++ extrasPure (greenKVs config) ["image", "port", "environment"]
        ++ scenarioEnvBlock "green_agent.environment" (envList (greenKVs config))
        ++ [""]
        ++ (roleList config).flatMap (fun r =>
            ["[[participants]]",
             "role = \"" ++ pyStr (nameOf r) ++ "\"",
             "endpoint = \"http://" ++ pyStr (nameOf r) ++ ":" ++ pyStr (portOf r) ++ "\""]
            ++ extrasPure (fields r) ["name", "image", "port", "environment"]
            ++ scenarioEnvBlock "participants.environment" (envList (fields r))
            ++ [""])
        ++ passThroughLines config))
    ∧ (∀ k s, renderKV k (.str s) = some (k ++ " = \"" ++ s ++ "\""))
    ∧ (∀ k b, renderKV k (.bool b) = some (k ++ " = " ++ cond b "true" "false"))
    ∧ (∀ k n, renderKV k (.int n) = some (k ++ " = " ++ toString n))
    ∧ (∀ k xs, renderKV k (.list xs) = some (k ++ " = " ++ pyRepr (.list xs))) := by
  refine ⟨?_, fun k s => rfl, fun k b => rfl, fun k n => rfl, fun k xs => rfl⟩
  rw [generate_runner_scenario_chars config h]
  have hfun : participantBlockPure = (fun r =>
      ["[[participants]]",
       "role = \"" ++ pyStr (nameOf r) ++ "\"",
       "endpoint = \"http://" ++ pyStr (nameOf r) ++ ":" ++ pyStr (portOf r) ++ "\""]
      ++ extrasPure (fields r) ["name", "image", "port", "environment"]
      ++ scenarioEnvBlock "participants.environment" (envList (fields r))
      ++ [""]) := by
    funext r
    rfl
  simp [scenarioPure, hfun]

theorem claim_C5_witness :
    generate_runner_scenario cfgEnvEx = .ok (String.intercalate "\n"
      (["[green_agent]",
        "endpoint = \"http://green-agent:" ++ pyStr (fieldD (greenKVs cfgEnvEx) "port") ++ "\""]
        ++ extrasPure (greenKVs cfgEnvEx) ["image", "port", "environment"]
        ++ scenarioEnvBlock "green_agent.environment" (envList (greenKVs cfgEnvEx))
        ++ [""]
        ++ (roleList cfgEnvEx).flatMap (fun r =>
            ["[[participants]]",
             "role = \"" ++ pyStr (nameOf r) ++ "\"",
             "endpoint = \"http://" ++ pyStr (nameOf r) ++ ":" ++ pyStr (portOf r) ++ "\""]
            ++ extrasPure (fields r) ["name", "image", "port", "environment"]
            ++ scenarioEnvBlock "participants.environment" (envList (fields r))
            ++ [""])
        ++ passThroughLines cfgEnvEx))
    ∧ (∀ k s, renderKV k (.str s) = some (k ++ " = \"" ++ s ++ "\""))
    ∧ (∀ k b, renderKV k (.bool b) = some (k ++ " = " ++ cond b "true" "false"))
    ∧ (∀ k n, renderKV k (.int n) = some (k ++ " = " ++ toString n))
    ∧ (∀ k xs, renderKV k (.list xs) = some (k ++ " = " ++ pyRepr (.list xs))) :=
  claim_C5 cfgEnvEx rfl

/-- Claim C6: on every well-shaped document each top-level section other
than `green_agent` and `participants` is reproduced, in document order
after the participants, as its own section with the same per-value
rendering rules; a scalar-valued `[metadata] owner = "x"` section comes
through unchanged. -/
theorem claim_C6 (config : Config) (h : configOk config = true) :
    (∃ pre, generate_runner_scenario config = .ok (String.intercalate "\n"
        (pre ++ (config.filter (fun kv => !(["green_agent", "participants"].contains kv.1))).flatMap
            (fun kv => sectionLines kv.1 kv.2))))
    ∧ (∀ name kvs, sectionLines name (.table kvs) =
        ("[" ++ name ++ "]") :: kvs.filterMap (fun kv => renderKV kv.1 kv.2) ++ [""])
    ∧ sectionLines "metadata" (.table [("owner", .str "x")]) = ["[metadata]", "owner = \"x\"", ""] := by
  refine ⟨⟨["[green_agent]",
      "endpoint = \"http://green-agent:" ++ pyStr (fieldD (greenKVs config) "port") ++ "\""]
      ++ extrasPure (greenKVs config) ["image", "port", "environment"]
      ++ scenarioEnvBlock "green_agent.environment" (envList (greenKVs config))
      ++ [""] ++ (roleList config).flatMap participantBlockPure, ?_⟩,
    fun name kvs => rfl, rfl⟩
  rw [generate_runner_scenario_chars config h]
  simp [scenarioPure, passThroughLines]

theorem claim_C6_witness :
    (∃ pre, generate_runner_scenario cfgEnvEx = .ok (String.intercalate "\n"
        (pre ++ (cfgEnvEx.filter (fun kv => !(["green_agent", "participants"].contains kv.1))).flatMap
            (fun kv => sectionLines kv.1 kv.2))))
    ∧ (∀ name kvs, sectionLines name (.table kvs) =
        ("[" ++ name ++ "]") :: kvs.filterMap (fun kv => renderKV kv.1 kv.2) ++ [""])
    ∧ sectionLines "metadata" (.table [("owner", .str "x")]) = ["[metadata]", "owner = \"x\"", ""] :=
  claim_C6 cfgEnvEx rfl

/-- Claim C7: each generator is a pure function of the parsed document
alone; two runs over the same document yield identical artifact contents
for all three files. -/
theorem claim_C7 (c₁ c₂ : Config) (h : c₁ = c₂) :
    generate_docker_compose c₁ = generate_docker_compose c₂
    ∧ generate_runner_scenario c₁ = generate_runner_scenario c₂
    ∧ generate_env_example c₁ = generate_env_example c₂ := by
  subst h
  exact ⟨rfl, rfl, rfl⟩

theorem claim_C7_witness :
    generate_docker_compose cfgEx = generate_docker_compose cfgEx
    ∧ generate_runner_scenario cfgEx = generate_runner_scenario cfgEx
    ∧ generate_env_example cfgEx = generate_env_example cfgEx :=
  claim_C7 cfgEx cfgEx rfl

/-- Claim C8: the validator and the three generators leave the document
unchanged: the document threaded through the whole pipeline comes out
equal to the one passed in.  (In this embedding every operation the script
performs on the document is a read, so the property holds for every
document, well-shaped or not, and along every exit path.) -/
theorem claim_C8 (config : Config) : (runPipeline config).2 = config := by
  cases hv : validate_config config with
  | exited m => simp [runPipeline, hv]
  | raised => simp [runPipeline, hv]
  | ok u =>
    cases hc : generate_docker_compose config with
    | exited m => simp [runPipeline, hv, hc]
    | raised => simp [runPipeline, hv, hc]
    | ok c =>
      cases hs : generate_runner_scenario config with
      | exited m => simp [runPipeline, hv, hc, hs]
      | raised => simp [runPipeline, hv, hc, hs]
      | ok s =>
        cases he : generate_env_example config with
        | exited m => simp [runPipeline, hv, hc, hs, he]
        | raised => simp [runPipeline, hv, hc, hs, he]
        | ok e => simp [runPipeline, hv, hc, hs, he]

/-- Claim C9: when the input path is missing nothing happens; when it
exists the output directory is created first (the head of the effect
trace), before parsing and validation, so a parse failure or a validation
failure still leaves the created directory and nothing else; no file is
written on those paths. -/
theorem claim_C9 :
    (∀ parsed, mainEffects false parsed = ([], false))
    ∧ mainEffects true none = ([Effect.mkdirOutputDir], false)
    ∧ (∀ config, (mainEffects true (some config)).1.head? = some Effect.mkdirOutputDir)
    ∧ (∀ config m, validate_config config = .exited m →
        mainEffects true (some config) = ([Effect.mkdirOutputDir], false)) := by
  refine ⟨fun parsed => rfl, rfl, fun config => ?_, fun config m hv => ?_⟩
  · simp [mainEffects]
  · simp [mainEffects, mainOutputs_exited config m hv]

/-- Claim C10: the per-value rendering yields nothing for a nested
mapping, so a mapping-valued field contributes no line — dropping such
fields first changes neither an extra-field rendering nor a pass-through
section — and a top-level key whose value is not a mapping yields just the
section header and the blank line; this is the rendering the rewritten
scenario of every well-shaped document uses. -/
theorem claim_C10 (config : Config) (h : configOk config = true) :
    (∀ k kvs, renderKV k (.table kvs) = none)
    ∧ (∀ name v, isTableV v = false → sectionLines name v = ["[" ++ name ++ "]", ""])
    ∧ (∀ kvs dk, extrasPure kvs dk = extrasPure (kvs.filter (fun kv => !isTableV kv.2)) dk)
    ∧ (∀ name kvs, sectionLines name (.table kvs) =
        sectionLines name (.table (kvs.filter (fun kv => !isTableV kv.2))))
    ∧ generate_runner_scenario config = .ok (String.intercalate "\n" (scenarioPure config)) := by
  refine ⟨fun k kvs => rfl, fun name v hv => ?_, fun kvs dk => ?_, fun name kvs => ?_,
    generate_runner_scenario_chars config h⟩
  · cases v with
    | table kvs => simp [isTableV] at hv
    | str s => rfl
    | int n => rfl
    | bool b => rfl
    | list l => rfl
  · have hcomm : (kvs.filter (fun kv => !(dk.contains kv.1))).filter (fun kv => !isTableV kv.2)
        = (kvs.filter (fun kv => !isTableV kv.2)).filter (fun kv => !(dk.contains kv.1)) := by
      rw [List.filter_filter, List.filter_filter]
      exact List.filter_congr (fun a ha => by rw [Bool.and_comm])
    rw [extrasPure, extrasPure, filterMap_renderKV_drop, hcomm]
  · simp only [sectionLines]
    rw [filterMap_renderKV_drop]

theorem claim_C10_witness :
    (∀ k kvs, renderKV k (.table kvs) = none)
    ∧ (∀ name v, isTableV v = false → sectionLines name v = ["[" ++ name ++ "]", ""])
    ∧ (∀ kvs dk, extrasPure kvs dk = extrasPure (kvs.filter (fun kv => !isTableV kv.2)) dk)
    ∧ (∀ name kvs, sectionLines name (.table kvs) =
        sectionLines name (.table (kvs.filter (fun kv => !isTableV kv.2))))
    ∧ generate_runner_scenario cfgEnvEx = .ok (String.intercalate "\n" (scenarioPure cfgEnvEx)) :=
  claim_C10 cfgEnvEx rfl
